import Mathlib

/-!
Verification of the request-orchestration layer of the `instructor` repository:
the hook registry (registration, combination, copying, emission) and the
validation-retry loop with its aggregate failure object, plus the
`instructor.multimodal` backward-compatibility shim.

The hook registry class (`instructor.core.hooks.Hooks`) and the retry engine
are exercised by the repository's example scripts
(`examples/hooks/combination_example.py`, `examples/hooks/per_call_hooks_example.py`,
`examples/retry-tracking/example.py`) but their defining modules are not part
of the source tree available here, so those two components are modelled from
the specification, keeping the attribute names the example scripts rely on
(`n_attempts`, `total_usage`, `failed_attempts`, `attempt_number`, `exception`,
`completion`).  The shim `instructor/multimodal.py` is embedded directly from
its source.
-/

namespace Instructor

/-! ## Hook registry

Python registries have reference semantics: `+=` mutates the left operand,
`+` and `Hooks.combine` allocate a fresh object, `copy` allocates a fresh
object with independent list storage.  We therefore model a heap (`Store`)
mapping registry identifiers to their handler lists, and each operation as an
explicit state transformer, so that "does not mutate", "mutates in place" and
"independent storage" are real statements about the heap. -/

/-- A handler identity (the Python callable's object identity). -/
abbrev Handler := Nat

/-- The contents of one registry: the registration list, in insertion order.
Each entry pairs the event name the handler was registered for with the
handler's identity.  Per-event handler lists are recovered by filtering, which
preserves insertion order per event. -/
abbrev Reg := List (String × Handler)

/-- The ordered handler list a registry's contents hold for one event:
registration order, restricted to that event. -/
def getHandlers (r : Reg) (e : String) : List Handler :=
  (r.filter (fun p => p.1 == e)).map Prod.snd

/-- The heap of registry objects: `regs i` is the contents of the registry
with identifier `i`; identifiers `≥ next` are unallocated (empty). -/
structure Store where
  regs : Nat → Reg
  next : Nat

/-- The empty heap. -/
def Store.empty : Store := ⟨fun _ => [], 0⟩

/-- Read a registry's contents. -/
def Store.get (s : Store) (i : Nat) : Reg := s.regs i

/-- Overwrite one registry's contents in place (no allocation). -/
def Store.set (s : Store) (i : Nat) (r : Reg) : Store :=
  ⟨fun j => if j = i then r else s.regs j, s.next⟩

/-- Allocate a fresh registry object holding contents `r`; returns the new
heap and the fresh identifier. -/
def Store.alloc (s : Store) (r : Reg) : Store × Nat :=
  (⟨fun j => if j = s.next then r else s.regs j, s.next + 1⟩, s.next)

/-- Modelled from the spec (§4.1, `Hooks()` in the example scripts): create a
new, empty registry. -/
def newHooks (s : Store) : Store × Nat := s.alloc []

/-- Modelled from the spec (§4.1 Register; `Hooks.on` as called at
`combination_example.py` lines 37-40 etc.): append `h` to the ordered list
for event `e` of registry `a`, mutating `a` in place. -/
def Hooks.on (s : Store) (a : Nat) (e : String) (h : Handler) : Store :=
  s.set a (s.get a ++ [(e, h)])

/-- Modelled from the spec (§4.1 Combine; the `+` operator and
`Hooks.combine` used at `combination_example.py` lines 108 and 143): allocate
a new registry whose handler list per event is `a`'s list followed by `b`'s
list; neither operand is written. -/
def Hooks.combine (s : Store) (a b : Nat) : Store × Nat :=
  s.alloc (s.get a ++ s.get b)

/-- Modelled from the spec (§4.1 MergeInto; the `+=` operator used at
`combination_example.py` line 126): overwrite `a` in place with `a`'s
handlers followed by `b`'s handlers; no new object is allocated and `b` is
not written. -/
def mergeInto (s : Store) (a b : Nat) : Store :=
  s.set a (s.get a ++ s.get b)

/-- Modelled from the spec (§4.1 Copy; `Hooks.copy` used at
`combination_example.py` line 160): allocate a new registry holding the same
handler entries in the same order, with independent list storage. -/
def Hooks.copy (s : Store) (a : Nat) : Store × Nat :=
  s.alloc (s.get a)

/-- The order in which an emission for event `e` on registry `a` invokes
handlers: registration order, restricted to `e`. -/
def emitOrder (s : Store) (a : Nat) (e : String) : List Handler :=
  getHandlers (s.get a) e

/-- Indicates, for each handler identity, whether invoking it raises an
error during the emission being considered. -/
abbrev HandlerBehavior := Handler → Bool

/-- Sequential invocation of a handler list.  `catchEach` says whether each
call is wrapped in its own catch-all (the spec's §4.1 Emit isolation).  The
result is the list of handlers actually invoked, in order, together with the
first error that propagated out of the run (`none` if the run returned
normally).  Without the per-call catch, a raising handler stops the run and
its error propagates; with it, every handler runs and nothing propagates. -/
def emitRun (behav : HandlerBehavior) (catchEach : Bool) : List Handler → List Handler × Option Handler
  | [] => ([], none)
  | h :: rest =>
    if behav h && !catchEach then
      ([h], some h)
    else
      let out := emitRun behav catchEach rest
      (h :: out.1, out.2)

/-- Modelled from the spec (§4.1 Emit): invoke every handler registered for
`e` on registry `a`, in order, each call wrapped in its own catch-all so a
handler's error is swallowed and never propagates to the caller. -/
def emit (s : Store) (a : Nat) (e : String) (behav : HandlerBehavior) : List Handler × Option Handler :=
  emitRun behav true (emitOrder s a e)

/-! ### Event names and the example scripts' registrations

The event names actually used for registration in the source tree are the
string literals passed to `Hooks.on` by the example scripts.  The builder
functions below are direct translations of the example scripts' hook-building
functions; handler identities number the distinct Python callables. -/

/-- The closed event-name set claimed by the specification (§3). -/
def specEventNames : List String :=
  ["request-prepared", "response-received", "transport-error", "validation-error"]

/-- The event names the source tree's example scripts actually register
handlers for (the four hook points: pre-call kwargs, post-call response,
transport error, parse/validation error). -/
def codeEventNames : List String :=
  ["completion:kwargs", "completion:response", "completion:error", "parse:error"]

/-- From `combination_example.py` lines 23-42 (`create_logging_hooks`):
handlers 0 = `log_request`, 1 = `log_response`, 2 = `log_error` (registered
for both error events). -/
def createLoggingHooks (s : Store) : Store × Nat :=
  let p := newHooks s
  let s1 := Hooks.on p.1 p.2 "completion:kwargs" 0
  let s2 := Hooks.on s1 p.2 "completion:response" 1
  let s3 := Hooks.on s2 p.2 "completion:error" 2
  let s4 := Hooks.on s3 p.2 "parse:error" 2
  (s4, p.2)

/-- From `combination_example.py` lines 45-73 (`create_metrics_hooks`):
handlers 3 = `count_request`, 4 = `count_response`, 5 = `count_error`. -/
def createMetricsHooks (s : Store) : Store × Nat :=
  let p := newHooks s
  let s1 := Hooks.on p.1 p.2 "completion:kwargs" 3
  let s2 := Hooks.on s1 p.2 "completion:response" 4
  let s3 := Hooks.on s2 p.2 "completion:error" 5
  let s4 := Hooks.on s3 p.2 "parse:error" 5
  (s4, p.2)

/-- From `combination_example.py` lines 76-94 (`create_debug_hooks`):
handlers 6 = `debug_request`, 7 = `debug_response`, 8 = `debug_error`. -/
def createDebugHooks (s : Store) : Store × Nat :=
  let p := newHooks s
  let s1 := Hooks.on p.1 p.2 "completion:kwargs" 6
  let s2 := Hooks.on s1 p.2 "completion:response" 7
  let s3 := Hooks.on s2 p.2 "completion:error" 8
  let s4 := Hooks.on s3 p.2 "parse:error" 8
  (s4, p.2)

/-- From `per_call_hooks_example.py` lines 21-42 (`create_client_hooks`):
handlers 10 = `log_all_requests`, 11 = `log_all_responses`,
12 = `log_all_errors`. -/
def createClientHooks (s : Store) : Store × Nat :=
  let p := newHooks s
  let s1 := Hooks.on p.1 p.2 "completion:kwargs" 10
  let s2 := Hooks.on s1 p.2 "completion:response" 11
  let s3 := Hooks.on s2 p.2 "completion:error" 12
  let s4 := Hooks.on s3 p.2 "parse:error" 12
  (s4, p.2)

/-- From `per_call_hooks_example.py` lines 45-65 (`create_debug_hooks`):
handlers 13 = `debug_request`, 14 = `debug_response`. -/
def createPerCallDebugHooks (s : Store) : Store × Nat :=
  let p := newHooks s
  let s1 := Hooks.on p.1 p.2 "completion:kwargs" 13
  let s2 := Hooks.on s1 p.2 "completion:response" 14
  (s2, p.2)

/-- From `per_call_hooks_example.py` lines 68-90 (`create_performance_hooks`):
handlers 15 = `perf_start`, 16 = `perf_end`. -/
def createPerformanceHooks (s : Store) : Store × Nat :=
  let p := newHooks s
  let s1 := Hooks.on p.1 p.2 "completion:kwargs" 15
  let s2 := Hooks.on s1 p.2 "completion:response" 16
  (s2, p.2)

/-- The event names a freshly built registry dispatches on: the first
components of its registration list. -/
def registeredEvents (p : Store × Nat) : List String :=
  (p.1.get p.2).map Prod.fst

/-! ## Retry orchestrator

Modelled from the spec (§4.2 state machine) together with the attribute
shapes the repository's `examples/retry-tracking/example.py` consumes from
`InstructorRetryException`: `n_attempts`, `total_usage`, `failed_attempts`,
and per record `attempt_number`, `exception`, `completion`.  The transport
and validation collaborators are abstracted as a script assigning each
attempt number its outcome (transport failure, validation failure with a raw
response, or success with a validated value). -/

/-- A raw response from the transport collaborator; `usage` is the optional
usage/cost metadata the provider may attach. -/
structure RawResponse where
  usage : Option Nat
deriving DecidableEq

/-- The failure taxonomy distinguished in an attempt record: transport-kind
versus validation-kind. -/
inductive ErrKind where
  | transport
  | validation
deriving DecidableEq

/-- One attempt record (an element of `failed_attempts` in
`examples/retry-tracking/example.py`): the 1-based attempt number, the error
kind and message, and the raw response if the transport call succeeded
(`none` when the transport call itself failed). -/
structure FailedAttempt where
  attempt_number : Nat
  kind : ErrKind
  exception : String
  completion : Option RawResponse
deriving DecidableEq

/-- The usage contribution of one attempt record: the usage metadata of its
raw response, where a missing response (transport failure) or a response
without a usage field contributes zero. -/
def FailedAttempt.usage (r : FailedAttempt) : Nat :=
  match r.completion with
  | none => 0
  | some resp => resp.usage.getD 0

/-- The aggregate failure raised on retry exhaustion (the
`InstructorRetryException` consumed at `examples/retry-tracking/example.py`
lines 77-96): all attempt records oldest first, the total attempt count, the
summed usage, and the final attempt's error as the terminal error. -/
structure InstructorRetryException where
  failed_attempts : List FailedAttempt
  n_attempts : Nat
  total_usage : Nat
  last_exception : String
  last_kind : ErrKind
deriving DecidableEq

/-- The outcome of one attempt, as produced by the transport and validation
collaborators: the transport call fails, or it succeeds and validation fails
on the raw response, or validation succeeds with a validated value. -/
inductive AttemptResult (α : Type) where
  | transportError (msg : String)
  | validationError (msg : String) (resp : RawResponse)
  | success (value : α) (resp : RawResponse)
deriving DecidableEq

/-- Whether an attempt outcome is a validation success. -/
def AttemptResult.isSuccess {α : Type} : AttemptResult α → Bool
  | .success _ _ => true
  | _ => false

/-- The attempt record built at the end of a failed attempt numbered `k`:
transport failures carry no raw response, validation failures carry the raw
response that failed to validate.  (Only applied to failing outcomes; the
success case is a dummy value.) -/
def failRec {α : Type} (k : Nat) : AttemptResult α → FailedAttempt
  | .transportError msg => ⟨k, .transport, msg, none⟩
  | .validationError msg resp => ⟨k, .validation, msg, some resp⟩
  | .success _ _ => ⟨k, .validation, "", none⟩

/-- The error message of a failing attempt outcome. -/
def failMsg {α : Type} : AttemptResult α → String
  | .transportError msg => msg
  | .validationError msg _ => msg
  | .success _ _ => ""

/-- The error kind of a failing attempt outcome. -/
def failKind {α : Type} : AttemptResult α → ErrKind
  | .transportError _ => .transport
  | _ => .validation

/-- Modelled from the spec (§4.2 steps 1-6): the attempt loop.  `left` is the
number of attempts still allowed after the current one (`0` means the current
attempt is the last of the budget), `k` the current 1-based attempt number,
`recs` the attempt records collected so far (oldest first), and `acc` the
usage accumulated over those records.  A validation success returns the
validated value immediately (Done); a failure appends an attempt record and
either retries or, when the budget is exhausted, raises the aggregate failure
built from all records, the attempt count, the accumulated usage, and the
last attempt's error. -/
def retryLoop {α : Type} (script : Nat → AttemptResult α) :
    Nat → Nat → List FailedAttempt → Nat → Except InstructorRetryException α
  | 0, k, recs, acc =>
    match script k with
    | .success v _ => .ok v
    | r =>
      let fr := failRec k r
      .error ⟨recs ++ [fr], k, acc + fr.usage, failMsg r, failKind r⟩
  | left + 1, k, recs, acc =>
    match script k with
    | .success v _ => .ok v
    | r =>
      let fr := failRec k r
      retryLoop script left (k + 1) (recs ++ [fr]) (acc + fr.usage)

/-- Modelled from the spec (§4.2 Execute): run the attempt loop with the
attempt counter starting at 1 and a budget of `maxAttempts` total attempts
(`maxAttempts ≥ 1` per the contract). -/
def execute {α : Type} (script : Nat → AttemptResult α) (maxAttempts : Nat) :
    Except InstructorRetryException α :=
  retryLoop script (maxAttempts - 1) 1 [] 0

/-! ## The `instructor.multimodal` backward-compatibility shim

Embedded from `src/instructor/multimodal.py`: the module body performs one
from-import of a fixed list of names out of `instructor.processing.multimodal`
(binding each name in the shim's namespace to the identical object) and then
calls `warnings.warn(..., DeprecationWarning, stacklevel=2)` at module import
time.  Python objects are identified by opaque identities (`Nat`); a module
maps exported names to object identities. -/

/-- A Python module's exported bindings: name to object identity. -/
structure PyModule where
  exports : String → Option Nat

/-- The names imported from `instructor.processing.multimodal` by the shim's
from-import statement (`src/instructor/multimodal.py` lines 16-31). -/
def multimodalImportedNames : List String :=
  ["PDF", "Image", "Audio", "ImageParamsBase", "ImageParams",
   "CacheControlType", "OptionalCacheControlType", "VALID_MIME_TYPES",
   "VALID_AUDIO_MIME_TYPES", "VALID_PDF_MIME_TYPES", "autodetect_media",
   "convert_contents", "convert_messages", "extract_genai_multimodal_content"]

/-- The shim's declared public surface (`src/instructor/multimodal.py`
lines 43-58, the module's listing of its exported names). -/
def multimodalAllNames : List String :=
  ["PDF", "Image", "Audio", "ImageParamsBase", "ImageParams",
   "CacheControlType", "OptionalCacheControlType", "VALID_MIME_TYPES",
   "VALID_AUDIO_MIME_TYPES", "VALID_PDF_MIME_TYPES", "autodetect_media",
   "convert_contents", "convert_messages", "extract_genai_multimodal_content"]

/-- The result of importing a module: its bindings and the warning categories
emitted while the module body ran. -/
structure ModuleImportResult where
  module : PyModule
  warningsEmitted : List String

/-- Embedded from `src/instructor/multimodal.py`: importing the shim, given
the `instructor.processing.multimodal` module, binds each name of the
from-import list to the identical object exported by the processing module
and emits a `DeprecationWarning` while the module body runs, that is, at
module-import time. -/
def importInstructorMultimodal (processing : PyModule) : ModuleImportResult :=
  { module := { exports := fun n =>
      if n ∈ multimodalImportedNames then processing.exports n else none },
    warningsEmitted := ["DeprecationWarning"] }

/-! ## Concrete fixtures used by the witness theorems -/

/-- A three-registry heap fixture. -/
def storeFixture : Store :=
  ⟨fun i =>
    if i = 0 then [("completion:kwargs", 0), ("parse:error", 2)]
    else if i = 1 then [("completion:kwargs", 3), ("completion:response", 4)]
    else if i = 2 then [("completion:kwargs", 6)]
    else [], 3⟩

/-- A script on which every attempt fails validation, each response carrying
3 usage units. -/
def scriptAllFail : Nat → AttemptResult Nat :=
  fun _ => .validationError "validation failed" ⟨some 3⟩

/-- The aggregate failure produced by `scriptAllFail` under a budget of two
attempts. -/
def exhaustedTwo : InstructorRetryException :=
  { failed_attempts :=
      [⟨1, .validation, "validation failed", some ⟨some 3⟩⟩,
       ⟨2, .validation, "validation failed", some ⟨some 3⟩⟩],
    n_attempts := 2, total_usage := 6,
    last_exception := "validation failed", last_kind := .validation }

/-- A script failing validation on attempt 1 and succeeding on attempt 2. -/
def scriptSucceedsAt2 : Nat → AttemptResult Nat :=
  fun k => if k = 2 then .success 42 ⟨some 1⟩ else .validationError "bad" ⟨some 2⟩

/-- A script with a transport failure (no response), a validation failure
whose response has no usage field, and a validation failure whose response
carries 5 usage units. -/
def scriptMixedUsage : Nat → AttemptResult Nat :=
  fun k =>
    if k = 1 then .transportError "connection reset"
    else if k = 2 then .validationError "bad" ⟨none⟩
    else .validationError "bad" ⟨some 5⟩

/-- The aggregate failure produced by `scriptMixedUsage` under a budget of
three attempts. -/
def exhaustedMixed : InstructorRetryException :=
  { failed_attempts :=
      [⟨1, .transport, "connection reset", none⟩,
       ⟨2, .validation, "bad", some ⟨none⟩⟩,
       ⟨3, .validation, "bad", some ⟨some 5⟩⟩],
    n_attempts := 3, total_usage := 5,
    last_exception := "bad", last_kind := .validation }

/-- A processing-module fixture assigning distinct identities to the
multimodal exports. -/
def processingFixture : PyModule :=
  ⟨fun n => if n = "PDF" then some 17 else if n = "Image" then some 18 else some 19⟩

/-! ## Theorems: hook registry -/

theorem getHandlers_append (r1 r2 : Reg) (e : String) :
    getHandlers (r1 ++ r2) e = getHandlers r1 e ++ getHandlers r2 e := by
  simp [getHandlers, List.filter_append]

theorem Store.get_alloc_new (s : Store) (r : Reg) :
    (s.alloc r).1.get (s.alloc r).2 = r := by
  simp [Store.alloc, Store.get]

theorem Store.get_alloc_old (s : Store) (r : Reg) (i : Nat) (h : i < s.next) :
    (s.alloc r).1.get i = s.get i := by
  simp [Store.alloc, Store.get, Nat.ne_of_lt h]

theorem Store.get_set_self (s : Store) (i : Nat) (r : Reg) :
    (s.set i r).get i = r := by
  simp [Store.set, Store.get]

theorem Store.get_set_other (s : Store) (i j : Nat) (r : Reg) (h : j ≠ i) :
    (s.set i r).get j = s.get j := by
  simp [Store.set, Store.get, h]

/-- Claim C3: for all registries `a` and `b` and every event, `Combine(a, b)`
produces a new registry whose handler list for that event is `a`'s handlers in
registration order followed by `b`'s; `Combine` mutates neither `a` nor `b`;
and `Combine` is associative in emission order:
`Combine(Combine(a,b),c)` and `Combine(a,Combine(b,c))` yield the same
emission order for every event. -/
theorem combine_spec (s : Store) (a b c : Nat) (e : String)
    (ha : a < s.next) (hb : b < s.next) (hc : c < s.next) :
    emitOrder (Hooks.combine s a b).1 (Hooks.combine s a b).2 e
        = emitOrder s a e ++ emitOrder s b e
    ∧ (Hooks.combine s a b).1.get a = s.get a
    ∧ (Hooks.combine s a b).1.get b = s.get b
    ∧ emitOrder
        (Hooks.combine (Hooks.combine s a b).1 (Hooks.combine s a b).2 c).1
        (Hooks.combine (Hooks.combine s a b).1 (Hooks.combine s a b).2 c).2 e
      = emitOrder
        (Hooks.combine (Hooks.combine s b c).1 a (Hooks.combine s b c).2).1
        (Hooks.combine (Hooks.combine s b c).1 a (Hooks.combine s b c).2).2 e := by
  have hna := Nat.ne_of_lt ha
  have hnb := Nat.ne_of_lt hb
  have hnc := Nat.ne_of_lt hc
  refine ⟨?_, ?_, ?_, ?_⟩ <;>
    simp [Hooks.combine, Store.alloc, Store.get, emitOrder, getHandlers_append,
      hna, hnb, hnc, List.append_assoc]

/-- Claim C4: for every registry, event, payload behaviour, if any registered
handler raises during `Emit`, every subsequent handler of that emission still
runs (the invocation list equals the full registration-order list) and the
`Emit` call returns normally, propagating no handler error. -/
theorem emit_isolates_handler_errors (s : Store) (a : Nat) (e : String)
    (behav : HandlerBehavior) :
    (emit s a e behav).1 = emitOrder s a e ∧ (emit s a e behav).2 = none := by
  have hrun : ∀ l : List Handler, emitRun behav true l = (l, none) := by
    intro l
    induction l with
    | nil => rfl
    | cons h rest ih => simp [emitRun, ih]
  simp [emit, hrun]

/-- Claim C7: `MergeInto(a, b)` mutates `a` in place so that `a`'s subsequent
emission for each event invokes `a`'s original handlers first and then `b`'s
handlers, while `b`'s handler lists are unchanged and no new registry object
is allocated. -/
theorem mergeInto_spec (s : Store) (a b : Nat) (hab : a ≠ b) :
    (∀ e, emitOrder (mergeInto s a b) a e = emitOrder s a e ++ emitOrder s b e)
    ∧ (mergeInto s a b).get b = s.get b
    ∧ (mergeInto s a b).next = s.next := by
  refine ⟨fun e => ?_, ?_, rfl⟩
  · simp [mergeInto, emitOrder, Store.get_set_self, getHandlers_append]
  · exact Store.get_set_other s a b _ (Ne.symm hab)

/-- Claim C8: `Copy(a)` returns a new registry holding the same handler
entries in the same order, with independent storage: registering on the copy
afterwards does not change `a`'s emission behaviour, and registering on `a`
does not change the copy's emission behaviour. -/
theorem copy_spec (s : Store) (a : Nat) (ha : a < s.next) :
    (Hooks.copy s a).1.get (Hooks.copy s a).2 = s.get a
    ∧ (∀ e h e2,
        emitOrder (Hooks.on (Hooks.copy s a).1 (Hooks.copy s a).2 e h) a e2
          = emitOrder s a e2)
    ∧ (∀ e h e2,
        emitOrder (Hooks.on (Hooks.copy s a).1 a e h) (Hooks.copy s a).2 e2
          = emitOrder (Hooks.copy s a).1 (Hooks.copy s a).2 e2) := by
  have hne : a ≠ s.next := Nat.ne_of_lt ha
  refine ⟨?_, fun e h e2 => ?_, fun e h e2 => ?_⟩ <;>
    simp [Hooks.copy, Hooks.on, Store.alloc, Store.set, Store.get, emitOrder,
      hne, Ne.symm hne]

/-- Claim C9 as stated is false on the source: the example scripts register
handlers under the event name `completion:kwargs`
(`combination_example.py` line 37), which is not one of the identifiers
`request-prepared`, `response-received`, `transport-error`,
`validation-error` claimed as the closed event-name set. -/
theorem event_names_counterexample :
    "completion:kwargs" ∈ registeredEvents (createLoggingHooks Store.empty)
    ∧ "completion:kwargs" ∉ specEventNames := by
  decide

/-- Claim C9 (amended): every event name accepted for handler registration in
the source tree belongs to the closed set `completion:kwargs`,
`completion:response`, `completion:error`, `parse:error` (the pre-call,
post-call-success, transport-failure and parse/validate-failure hook points),
and for the four-event builders these are exactly the dispatch keys of the
registry built. -/
theorem event_names_closed_set :
    registeredEvents (createLoggingHooks Store.empty) = codeEventNames
    ∧ registeredEvents (createMetricsHooks Store.empty) = codeEventNames
    ∧ registeredEvents (createDebugHooks Store.empty) = codeEventNames
    ∧ registeredEvents (createClientHooks Store.empty) = codeEventNames
    ∧ (∀ e ∈ registeredEvents (createPerCallDebugHooks Store.empty), e ∈ codeEventNames)
    ∧ (∀ e ∈ registeredEvents (createPerformanceHooks Store.empty), e ∈ codeEventNames) := by
  decide

/-! ## Theorems: retry orchestrator -/

theorem failRec_attempt_number {α : Type} (k : Nat) (r : AttemptResult α) :
    (failRec k r).attempt_number = k := by
  cases r <;> rfl

theorem map_failRec_number {α : Type} (script : Nat → AttemptResult α) (l : List Nat) :
    ((l.map (fun i => failRec i (script i))).map FailedAttempt.attempt_number) = l := by
  induction l with
  | nil => rfl
  | cons x xs ih => simp [failRec_attempt_number, ih]

theorem retryLoop_success_now {α : Type} (script : Nat → AttemptResult α)
    (left k : Nat) (recs : List FailedAttempt) (acc : Nat) (v : α) (r : RawResponse)
    (h : script k = .success v r) :
    retryLoop script left k recs acc = .ok v := by
  cases left <;> simp [retryLoop, h]

theorem retryLoop_zero {α : Type} (script : Nat → AttemptResult α)
    (k : Nat) (recs : List FailedAttempt) (acc : Nat)
    (h : (script k).isSuccess = false) :
    retryLoop script 0 k recs acc
      = .error ⟨recs ++ [failRec k (script k)], k,
          acc + (failRec k (script k)).usage,
          failMsg (script k), failKind (script k)⟩ := by
  cases hs : script k <;>
    simp_all [retryLoop, AttemptResult.isSuccess, failRec, failMsg, failKind]

theorem retryLoop_step {α : Type} (script : Nat → AttemptResult α)
    (left k : Nat) (recs : List FailedAttempt) (acc : Nat)
    (h : (script k).isSuccess = false) :
    retryLoop script (left + 1) k recs acc
      = retryLoop script left (k + 1) (recs ++ [failRec k (script k)])
          (acc + (failRec k (script k)).usage) := by
  cases hs : script k <;>
    simp_all [retryLoop, AttemptResult.isSuccess, failRec]

theorem retryLoop_all_fail {α : Type} (script : Nat → AttemptResult α) :
    ∀ left k recs acc,
      (∀ i, i ≤ left → (script (k + i)).isSuccess = false) →
      retryLoop script left k recs acc = .error
        { failed_attempts :=
            recs ++ (List.range' k (left + 1)).map (fun i => failRec i (script i)),
          n_attempts := k + left,
          total_usage := acc
            + (((List.range' k (left + 1)).map (fun i => failRec i (script i))).map
                FailedAttempt.usage).sum,
          last_exception := failMsg (script (k + left)),
          last_kind := failKind (script (k + left)) } := by
  intro left
  induction left with
  | zero =>
    intro k recs acc hfail
    have h0 : (script k).isSuccess = false := by simpa using hfail 0 (Nat.le_refl 0)
    rw [retryLoop_zero script k recs acc h0]
    simp [List.range'_one]
  | succ left ih =>
    intro k recs acc hfail
    have h0 : (script k).isSuccess = false := by simpa using hfail 0 (Nat.zero_le _)
    have hrest : ∀ i, i ≤ left → (script (k + 1 + i)).isSuccess = false := by
      intro i hi
      have harg : k + 1 + i = k + (i + 1) := by omega
      rw [harg]
      exact hfail (i + 1) (by omega)
    rw [retryLoop_step script left k recs acc h0, ih (k + 1) _ _ hrest]
    have harg1 : k + 1 + left = k + (left + 1) := by omega
    rw [harg1]
    simp [List.range'_succ, List.append_assoc, Nat.add_assoc]

theorem retryLoop_error_inv {α : Type} (script : Nat → AttemptResult α) :
    ∀ left k recs acc ex,
      k = recs.length + 1 →
      acc = (recs.map FailedAttempt.usage).sum →
      retryLoop script left k recs acc = .error ex →
      ex.n_attempts = ex.failed_attempts.length
        ∧ 1 ≤ ex.failed_attempts.length
        ∧ ex.total_usage = (ex.failed_attempts.map FailedAttempt.usage).sum := by
  intro left
  induction left with
  | zero =>
    intro k recs acc ex hk hacc heq
    cases hs : script k with
    | success v r =>
      rw [retryLoop_success_now script 0 k recs acc v r hs] at heq
      exact absurd heq (by simp)
    | transportError msg =>
      rw [retryLoop_zero script k recs acc (by simp [hs, AttemptResult.isSuccess])] at heq
      cases heq
      simp [hk, hacc, List.sum_append]
    | validationError msg resp =>
      rw [retryLoop_zero script k recs acc (by simp [hs, AttemptResult.isSuccess])] at heq
      cases heq
      simp [hk, hacc, List.sum_append]
  | succ left ih =>
    intro k recs acc ex hk hacc heq
    cases hs : script k with
    | success v r =>
      rw [retryLoop_success_now script (left + 1) k recs acc v r hs] at heq
      exact absurd heq (by simp)
    | transportError msg =>
      rw [retryLoop_step script left k recs acc (by simp [hs, AttemptResult.isSuccess])] at heq
      exact ih (k + 1) _ _ ex (by simp [hk]) (by simp [hacc, List.sum_append]) heq
    | validationError msg resp =>
      rw [retryLoop_step script left k recs acc (by simp [hs, AttemptResult.isSuccess])] at heq
      exact ih (k + 1) _ _ ex (by simp [hk]) (by simp [hacc, List.sum_append]) heq

theorem retryLoop_reaches_success {α : Type} (script : Nat → AttemptResult α)
    (k : Nat) (v : α) (r : RawResponse) (hsucc : script k = .success v r) :
    ∀ left k0 recs acc, k0 ≤ k → k ≤ k0 + left →
      (∀ i, k0 ≤ i → i < k → (script i).isSuccess = false) →
      retryLoop script left k0 recs acc = .ok v := by
  intro left
  induction left with
  | zero =>
    intro k0 recs acc h1 h2 hfail
    have hk : k0 = k := by omega
    subst hk
    exact retryLoop_success_now script 0 k0 recs acc v r hsucc
  | succ left ih =>
    intro k0 recs acc h1 h2 hfail
    by_cases hk : k0 = k
    · subst hk
      exact retryLoop_success_now script (left + 1) k0 recs acc v r hsucc
    · have hlt : k0 < k := lt_of_le_of_ne h1 hk
      have hf : (script k0).isSuccess = false := hfail k0 (Nat.le_refl k0) hlt
      rw [retryLoop_step script left k0 recs acc hf]
      exact ih (k0 + 1) _ _ (by omega) (by omega) (fun i hi1 hi2 => hfail i (by omega) hi2)

/-- Claim C1: for every `maxAttempts = N ≥ 1`, if every attempt `1..N` fails
(transport-kind or validation-kind), `Execute` raises an aggregate failure
whose attempt-record sequence has length exactly `N`, ordered oldest first
with attempt numbers `1..N` in increasing order. -/
theorem execute_exhausts_all_attempts {α : Type} (script : Nat → AttemptResult α)
    (N : Nat) (hN : 1 ≤ N)
    (hfail : ∀ i, 1 ≤ i → i ≤ N → (script i).isSuccess = false) :
    ∃ ex, execute script N = .error ex
      ∧ ex.failed_attempts.length = N
      ∧ ex.failed_attempts.map FailedAttempt.attempt_number = List.range' 1 N := by
  have h1 : ∀ i, i ≤ N - 1 → (script (1 + i)).isSuccess = false := by
    intro i hi
    exact hfail (1 + i) (by omega) (by omega)
  have hNs : N - 1 + 1 = N := by omega
  refine ⟨_, retryLoop_all_fail script (N - 1) 1 [] 0 h1, ?_, ?_⟩
  · simp [hNs]
  · simp only [List.nil_append, hNs, map_failRec_number]

/-- Claim C2: if attempts `1..k-1` fail but validation succeeds on attempt
`k < maxAttempts`, `Execute` returns the validated value; no aggregate
failure is raised and the earlier attempt records are not surfaced. -/
theorem execute_success_short_circuits {α : Type} (script : Nat → AttemptResult α)
    (N k : Nat) (v : α) (r : RawResponse)
    (hk1 : 1 ≤ k) (hkN : k < N) (hsucc : script k = .success v r)
    (hfail : ∀ i, 1 ≤ i → i < k → (script i).isSuccess = false) :
    execute script N = .ok v :=
  retryLoop_reaches_success script k v r hsucc (N - 1) 1 [] 0 hk1 (by omega)
    (fun i hi1 hi2 => hfail i hi1 hi2)

/-- Claim C5: in every aggregate failure `Execute` raises, the stored total
attempt count equals the length of the attempt-record sequence, and that
count is at least 1. -/
theorem retry_exception_count_invariant {α : Type} (script : Nat → AttemptResult α)
    (N : Nat) (ex : InstructorRetryException)
    (h : execute script N = .error ex) :
    ex.n_attempts = ex.failed_attempts.length ∧ 1 ≤ ex.n_attempts := by
  have hinv := retryLoop_error_inv script (N - 1) 1 [] 0 ex rfl rfl h
  exact ⟨hinv.1, hinv.1 ▸ hinv.2.1⟩

/-- Claim C6: in every aggregate failure `Execute` raises, the summed usage
equals the exact arithmetic sum of the individual usage values of its attempt
records, where an attempt with no usage field or no response at all
contributes zero (and never causes an error). -/
theorem retry_exception_usage_sum {α : Type} (script : Nat → AttemptResult α)
    (N : Nat) (ex : InstructorRetryException)
    (h : execute script N = .error ex) :
    ex.total_usage = (ex.failed_attempts.map FailedAttempt.usage).sum
    ∧ ∀ fa ∈ ex.failed_attempts, fa.completion = none → FailedAttempt.usage fa = 0 := by
  refine ⟨(retryLoop_error_inv script (N - 1) 1 [] 0 ex rfl rfl h).2.2, ?_⟩
  intro fa _ hnone
  simp [FailedAttempt.usage, hnone]

/-! ## Theorems: multimodal shim -/

/-- Claim C10: for every name in the shim's public surface, the object
obtained through the old import path `instructor.multimodal` is the identical
object exported by `instructor.processing.multimodal`, and importing the old
module emits a `DeprecationWarning` at module import time. -/
theorem multimodal_shim_reexports (processing : PyModule) (n : String)
    (hn : n ∈ multimodalAllNames) :
    (importInstructorMultimodal processing).module.exports n = processing.exports n
    ∧ "DeprecationWarning" ∈ (importInstructorMultimodal processing).warningsEmitted := by
  have himp : n ∈ multimodalImportedNames := by
    have hEq : multimodalAllNames = multimodalImportedNames := rfl
    rw [hEq] at hn
    exact hn
  exact ⟨by simp [importInstructorMultimodal, himp], by simp [importInstructorMultimodal]⟩

/-! ## Witnesses -/

/-- Witness for C1: on a script that fails validation on every attempt with a
budget of two attempts, `Execute` raises with records numbered 1, 2. -/
theorem execute_exhausts_all_attempts_witness :
    (1 ≤ 2 ∧ ∀ i, 1 ≤ i → i ≤ 2 → (scriptAllFail i).isSuccess = false)
    ∧ ∃ ex, execute scriptAllFail 2 = .error ex
        ∧ ex.failed_attempts.length = 2
        ∧ ex.failed_attempts.map FailedAttempt.attempt_number = List.range' 1 2 :=
  ⟨⟨by decide, fun i _ _ => rfl⟩,
   execute_exhausts_all_attempts scriptAllFail 2 (by decide) (fun i _ _ => rfl)⟩

/-- Witness for C2: attempt 1 fails validation, attempt 2 succeeds under a
budget of three attempts; `Execute` returns the validated value 42. -/
theorem execute_success_short_circuits_witness :
    (1 ≤ 2 ∧ 2 < 3 ∧ scriptSucceedsAt2 2 = .success 42 ⟨some 1⟩
      ∧ ∀ i, 1 ≤ i → i < 2 → (scriptSucceedsAt2 i).isSuccess = false)
    ∧ execute scriptSucceedsAt2 3 = .ok 42 :=
  ⟨⟨by decide, by decide, rfl,
    fun i h1 h2 => by
      have hi : i = 1 := by omega
      subst hi
      rfl⟩,
   execute_success_short_circuits scriptSucceedsAt2 3 2 42 ⟨some 1⟩ (by decide) (by decide)
     rfl
     (fun i h1 h2 => by
       have hi : i = 1 := by omega
       subst hi
       rfl)⟩

/-- Witness for C3 on the three-registry fixture. -/
theorem combine_spec_witness :
    (0 < storeFixture.next ∧ 1 < storeFixture.next ∧ 2 < storeFixture.next)
    ∧ (emitOrder (Hooks.combine storeFixture 0 1).1 (Hooks.combine storeFixture 0 1).2
          "completion:kwargs"
        = emitOrder storeFixture 0 "completion:kwargs"
            ++ emitOrder storeFixture 1 "completion:kwargs"
      ∧ (Hooks.combine storeFixture 0 1).1.get 0 = storeFixture.get 0
      ∧ (Hooks.combine storeFixture 0 1).1.get 1 = storeFixture.get 1
      ∧ emitOrder
          (Hooks.combine (Hooks.combine storeFixture 0 1).1
            (Hooks.combine storeFixture 0 1).2 2).1
          (Hooks.combine (Hooks.combine storeFixture 0 1).1
            (Hooks.combine storeFixture 0 1).2 2).2 "completion:kwargs"
        = emitOrder
          (Hooks.combine (Hooks.combine storeFixture 1 2).1 0
            (Hooks.combine storeFixture 1 2).2).1
          (Hooks.combine (Hooks.combine storeFixture 1 2).1 0
            (Hooks.combine storeFixture 1 2).2).2 "completion:kwargs") :=
  ⟨⟨by decide, by decide, by decide⟩,
   combine_spec storeFixture 0 1 2 "completion:kwargs" (by decide) (by decide) (by decide)⟩

/-- Witness for C5 on the two-attempt exhaustion fixture. -/
theorem retry_exception_count_invariant_witness :
    execute scriptAllFail 2 = .error exhaustedTwo
    ∧ (exhaustedTwo.n_attempts = exhaustedTwo.failed_attempts.length
        ∧ 1 ≤ exhaustedTwo.n_attempts) :=
  ⟨rfl, retry_exception_count_invariant scriptAllFail 2 exhaustedTwo rfl⟩

/-- Witness for C6 on the mixed-usage exhaustion fixture (no response, a
response without usage, and a response with 5 usage units sum to 5). -/
theorem retry_exception_usage_sum_witness :
    execute scriptMixedUsage 3 = .error exhaustedMixed
    ∧ (exhaustedMixed.total_usage
          = (exhaustedMixed.failed_attempts.map FailedAttempt.usage).sum
      ∧ ∀ fa ∈ exhaustedMixed.failed_attempts, fa.completion = none →
          FailedAttempt.usage fa = 0) :=
  ⟨rfl, retry_exception_usage_sum scriptMixedUsage 3 exhaustedMixed rfl⟩

/-- Witness for C7 on the three-registry fixture. -/
theorem mergeInto_spec_witness :
    (0 : Nat) ≠ 1
    ∧ ((∀ e, emitOrder (mergeInto storeFixture 0 1) 0 e
          = emitOrder storeFixture 0 e ++ emitOrder storeFixture 1 e)
      ∧ (mergeInto storeFixture 0 1).get 1 = storeFixture.get 1
      ∧ (mergeInto storeFixture 0 1).next = storeFixture.next) :=
  ⟨by decide, mergeInto_spec storeFixture 0 1 (by decide)⟩

/-- Witness for C8 on the three-registry fixture. -/
theorem copy_spec_witness :
    0 < storeFixture.next
    ∧ ((Hooks.copy storeFixture 0).1.get (Hooks.copy storeFixture 0).2
          = storeFixture.get 0
      ∧ (∀ e h e2,
          emitOrder
            (Hooks.on (Hooks.copy storeFixture 0).1 (Hooks.copy storeFixture 0).2 e h)
            0 e2
            = emitOrder storeFixture 0 e2)
      ∧ (∀ e h e2,
          emitOrder (Hooks.on (Hooks.copy storeFixture 0).1 0 e h)
            (Hooks.copy storeFixture 0).2 e2
            = emitOrder (Hooks.copy storeFixture 0).1 (Hooks.copy storeFixture 0).2 e2)) :=
  ⟨by decide, copy_spec storeFixture 0 (by decide)⟩

/-- Witness for C10 at the export name `PDF`. -/
theorem multimodal_shim_reexports_witness :
    "PDF" ∈ multimodalAllNames
    ∧ ((importInstructorMultimodal processingFixture).module.exports "PDF"
          = processingFixture.exports "PDF"
      ∧ "DeprecationWarning"
          ∈ (importInstructorMultimodal processingFixture).warningsEmitted) :=
  ⟨by decide, multimodal_shim_reexports processingFixture "PDF" (by decide)⟩

end Instructor
